import Mathlib

/-!
Verification of the planner MCP server (Express + zod + pg).

Shallow embedding of:
* the body_data validation engine (src/src/mcp/server.ts, zod schemas
  `McqOptionSchema`, `McqBodySchema`, `ShortTextBodySchema`, `TextBodySchema`
  and `validateBodyData`);
* the API-key middleware (src/src/middleware/auth.ts, `validateMcpKey`);
* the session registry and the three /mcp route handlers (src/unnamed/part_003);
* the activity query layer (src/src/types/index.ts, `activityQueries`)
  together with the `create_activity` tool handler.

JSON values are modelled by an inductive `Json`; JS number payloads are
modelled as `Int` (no claim depends on non-integral numbers).  String length
is Lean's `String.length`; all concrete data in the claims is ASCII, where
this agrees with JavaScript's UTF-16 `.length`.
-/

namespace Planner

/-- JSON / JS object values (JSONB payloads, request bodies). A missing
object key is represented by absence from the field list (JS `undefined`). -/
inductive Json where
  | null : Json
  | bool : Bool → Json
  | num : Int → Json
  | str : String → Json
  | arr : List Json → Json
  | obj : List (String × Json) → Json

/-- JS object property access `fields[key]` (keys of an object are unique;
first match). `none` is JS `undefined`. -/
def jlookup (fields : List (String × Json)) (key : String) : Option Json :=
  match fields with
  | [] => none
  | (k, v) :: rest => if k = key then some v else jlookup rest key

/-!
Section: zod parse results

zod's `safeParse` carries a status (`valid` / `dirty` / `aborted`) and a list
of issues.  `aborted` corresponds to zod's `INVALID` (a wrong-typed or
missing required field aborts the surrounding object/array parse, and an
aborted base parse skips `.refine` checks); `dirty` results (range/length
violations) keep parsing and keep collecting issues.  `safeParse` succeeds
iff no issue was recorded.  We track the aborted flag and the issue
messages, in the order zod records them.
-/

structure ParseRes where
  aborted : Bool
  issues : List String

/-- Merge the field results of a `z.object` parse: issues are concatenated
in shape order; any aborted field aborts the object (zod `mergeObjectSync`). -/
def combine (rs : List ParseRes) : ParseRes :=
  { aborted := rs.any (fun r => r.aborted),
    issues := (rs.map (fun r => r.issues)).flatten }

/-- `z.string()` with optional `.min(n, msg)` and `.max(n, msg)` checks.
A non-string input is an `invalid_type` issue and aborts; length violations
are dirty issues. -/
def parseStringField (minLen : Option (Nat × String)) (maxLen : Option (Nat × String)) :
    Json → ParseRes
  | .str s =>
      { aborted := false,
        issues :=
          (match minLen with
           | some (n, msg) => if s.length < n then [msg] else []
           | none => []) ++
          (match maxLen with
           | some (n, msg) => if s.length > n then [msg] else []
           | none => []) }
  | _ => { aborted := true, issues := ["Expected string"] }

/-- A required object field: a missing key is an `invalid_type` issue
(zod message `Required`) and aborts. -/
def parseRequired (inner : Json → ParseRes) : Option Json → ParseRes
  | none => { aborted := true, issues := ["Required"] }
  | some v => inner v

/-- A `.nullable().optional()` field: absent and `null` are accepted. -/
def parseOptNullable (inner : Json → ParseRes) : Option Json → ParseRes
  | none => { aborted := false, issues := [] }
  | some .null => { aborted := false, issues := [] }
  | some v => inner v

/-- `McqOptionSchema` (src/src/mcp/server.ts lines 9-13). -/
def parseMcqOption : Json → ParseRes
  | .obj fields =>
      combine
        [ parseRequired (parseStringField (some (1, "Option id is required")) none)
            (jlookup fields "id"),
          parseRequired
            (parseStringField none (some (500, "Option text must be 500 characters or fewer")))
            (jlookup fields "text"),
          parseOptNullable (parseStringField none none) (jlookup fields "imageUrl") ]
  | _ => { aborted := true, issues := ["Expected object"] }

/-- The `options` field: `z.array(McqOptionSchema).min(2, _).max(4, _)`.
zod records the length issues first, then parses the elements; an aborted
element aborts the array (`mergeArray`). -/
def parseMcqOptions : Json → ParseRes
  | .arr elems =>
      { aborted := (elems.map parseMcqOption).any (fun r => r.aborted),
        issues :=
          (if elems.length < 2 then ["At least 2 options are required"] else []) ++
          (if elems.length > 4 then ["At most 4 options are allowed"] else []) ++
          ((elems.map parseMcqOption).map (fun r => r.issues)).flatten }
  | _ => { aborted := true, issues := ["Expected array"] }

/-- The base object of `McqBodySchema` (before `.refine`), fields in shape
order (src/src/mcp/server.ts lines 15-24). -/
def mcqBaseParse : Json → ParseRes
  | .obj fields =>
      combine
        [ parseRequired (parseStringField (some (1, "question is required")) none)
            (jlookup fields "question"),
          parseOptNullable
            (parseStringField (some (1, "String must contain at least 1 character")) none)
            (jlookup fields "imageFile"),
          parseOptNullable (parseStringField none none) (jlookup fields "imageUrl"),
          parseOptNullable (parseStringField none none) (jlookup fields "imageAlt"),
          parseRequired parseMcqOptions (jlookup fields "options"),
          parseRequired (parseStringField (some (1, "correctOptionId is required")) none)
            (jlookup fields "correctOptionId") ]
  | _ => { aborted := true, issues := ["Expected object"] }

/-- The `.refine` predicate of `McqBodySchema`:
`data.options.some((o) => o.id === data.correctOptionId)`.  It is only
consulted when the base parse did not abort, in which case the payload shape
is guaranteed and this function reads exactly the fields the JS code reads. -/
def mcqRefineHolds : Json → Bool
  | .obj fields =>
      match jlookup fields "options", jlookup fields "correctOptionId" with
      | some (.arr elems), some (.str cid) =>
          elems.any (fun e =>
            match e with
            | .obj ofields =>
                match jlookup ofields "id" with
                | some (.str i) => i == cid
                | _ => false
            | _ => false)
      | _, _ => false
  | _ => false

/-- Message of the `.refine` rejection (src/src/mcp/server.ts line 27). -/
def mcqRefineMsg : String := "correctOptionId must match the id of one of the provided options"

/-- Issues of `McqBodySchema.safeParse`: base-object issues, then — only if
the base parse did not abort (zod skips refinements of an aborted inner
parse) — the `.refine` issue. -/
def mcqIssues (j : Json) : List String :=
  let base := mcqBaseParse j
  if base.aborted then base.issues
  else base.issues ++ (if mcqRefineHolds j then [] else [mcqRefineMsg])

/-- `ShortTextBodySchema` (src/src/mcp/server.ts lines 30-33).
`.passthrough()` affects only the parsed value (unknown keys are kept, and
acceptance is unchanged), so the issue computation ignores unknown keys. -/
def shortTextIssues : Json → List String
  | .obj fields =>
      (combine
        [ parseRequired (parseStringField (some (1, "question is required")) none)
            (jlookup fields "question"),
          parseRequired (parseStringField (some (1, "modelAnswer is required")) none)
            (jlookup fields "modelAnswer") ]).issues
  | _ => ["Expected object"]

/-- `TextBodySchema` (src/src/mcp/server.ts lines 35-37). -/
def textIssues : Json → List String
  | .obj fields =>
      (combine
        [ parseRequired (parseStringField (some (1, "text is required")) none)
            (jlookup fields "text") ]).issues
  | _ => ["Expected object"]

/-- Result of `validateBodyData`. -/
inductive ValidationResult where
  | ok : ValidationResult
  | err : String → ValidationResult
deriving DecidableEq

/-- `validateBodyData` (src/src/mcp/server.ts lines 39-63): dispatch on the
declared kind; on failure, all issue messages are joined with `"; "` into a
single error string; any other kind passes through unchecked. -/
def validateBodyData (type : String) (bodyData : Json) : ValidationResult :=
  if type = "multiple-choice-question" then
    let issues := mcqIssues bodyData
    if issues.isEmpty then .ok
    else .err ("Invalid body_data for multiple-choice-question: " ++ String.intercalate "; " issues)
  else if type = "short-text-question" then
    let issues := shortTextIssues bodyData
    if issues.isEmpty then .ok
    else .err ("Invalid body_data for short-text-question: " ++ String.intercalate "; " issues)
  else if type = "text" then
    let issues := textIssues bodyData
    if issues.isEmpty then .ok
    else .err ("Invalid body_data for text: " ++ String.intercalate "; " issues)
  else .ok

/-!
Section: API-key middleware (src/src/middleware/auth.ts)
-/

/-- Remove the first occurrence of `pat` from the character list
(JS `String.prototype.replace` with a string pattern and empty replacement
replaces only the first occurrence). -/
def dropFirstOcc (pat : List Char) : List Char → List Char
  | [] => []
  | c :: cs =>
      if pat.isPrefixOf (c :: cs) then (c :: cs).drop pat.length
      else c :: dropFirstOcc pat cs

/-- JS `authHeader?.replace('Bearer ', '')`. -/
def stripBearer (s : String) : String :=
  ⟨dropFirstOcc "Bearer ".toList s.toList⟩

/-- JS `a || b` on `string | undefined` values: the empty string and
`undefined` are falsy. -/
def jsOrUndef : Option String → Option String → Option String
  | some s, b => if s = "" then b else some s
  | none, b => b

/-- `const providedKey = authHeader?.replace('Bearer ', '') || mcpKey`
(src/src/middleware/auth.ts line 13). -/
def providedKey (authorization xMcpKey : Option String) : Option String :=
  jsOrUndef (authorization.map stripBearer) xMcpKey

inductive AuthOutcome where
  | unauthorized : AuthOutcome   -- 401, missing key
  | forbidden : AuthOutcome      -- 403, wrong key
  | proceed : AuthOutcome        -- next()
deriving DecidableEq

/-- `validateMcpKey` (src/src/middleware/auth.ts lines 8-36):
`!providedKey` → 401; `providedKey !== serviceKey` → 403; else `next()`. -/
def validateMcpKey (serviceKey : String) (authorization xMcpKey : Option String) :
    AuthOutcome :=
  match providedKey authorization xMcpKey with
  | none => .unauthorized
  | some k =>
      if k = "" then .unauthorized
      else if k ≠ serviceKey then .forbidden
      else .proceed

/-!
Section: Session registry and the /mcp routes (src/unnamed/part_003)

The registry is the JS `Map` `sessions`; the value type (a pair of an
`McpServer` and a transport) is abstracted to a `Nat` naming the session
object.  `Map.set` / `Map.has` / `Map.delete` are embedded on an
association list with the JS `Map` semantics (unique keys).
-/

abbrev SessionRegistry := List (String × Nat)

def mapHas (m : SessionRegistry) (k : String) : Bool :=
  m.any (fun p => p.1 = k)

def mapGet (m : SessionRegistry) (k : String) : Option Nat :=
  match m with
  | [] => none
  | p :: rest => if p.1 = k then some p.2 else mapGet rest k

/-- JS `Map.set`: overwrite an existing key, otherwise append. -/
def mapSet (m : SessionRegistry) (k : String) (v : Nat) : SessionRegistry :=
  if mapHas m k then m.map (fun p => if p.1 = k then (k, v) else p)
  else m ++ [(k, v)]

/-- JS `Map.delete`: remove the entry for `k` if present; never an error. -/
def mapDelete (m : SessionRegistry) (k : String) : SessionRegistry :=
  m.filter (fun p => p.1 ≠ k)

inductive McpResponse where
  | authMissing : McpResponse               -- 401 from validateMcpKey
  | authInvalid : McpResponse               -- 403 from validateMcpKey
  | invalidSession : McpResponse            -- 400 Invalid or missing session ID
  | handledBySession (token : String) : McpResponse
      -- forwarded to the live session's transport.handleRequest
  | initiated (token : String) : McpResponse
      -- new-session flow, handshake assigned this session id
  | initiationFailed : McpResponse          -- new-session flow, handshake failed
deriving DecidableEq

/-- Modelled from the spec: the SDK initiation handshake run in the
new-session branch of `app.post('/mcp')` is external library code
(`StreamableHTTPServerTransport` / `server.connect`).  Per the spec, the
`(token → session)` mapping is registered only when the handshake's
session-id assignment callback (`onsessioninitialized`) fires, and not when
the handshake fails.  `handshake = some id` abstracts a successful handshake
assigning session id `id` (the code's `randomUUID()`); `none` a failed one.
`fresh` names the newly created server/transport pair. -/
def newSessionFlow (sessions : SessionRegistry) (handshake : Option String) (fresh : Nat) :
    McpResponse × SessionRegistry :=
  match handshake with
  | some id => (.initiated id, mapSet sessions id fresh)
  | none => (.initiationFailed, sessions)

/-- `app.post('/mcp')` after auth (src/unnamed/part_003 lines 48-84):
`if (sessionId && sessions.has(sessionId))` forward to that session,
otherwise run the new-session branch.  The empty string is falsy in JS. -/
def postMcp (sessions : SessionRegistry) (sessionId : Option String)
    (handshake : Option String) (fresh : Nat) : McpResponse × SessionRegistry :=
  match sessionId with
  | some tok =>
      if tok ≠ "" ∧ mapHas sessions tok then (.handledBySession tok, sessions)
      else newSessionFlow sessions handshake fresh
  | none => newSessionFlow sessions handshake fresh

/-- `app.get('/mcp')` after auth (src/unnamed/part_003 lines 86-102):
`if (!sessionId || !sessions.has(sessionId))` → 400. -/
def getMcp (sessions : SessionRegistry) (sessionId : Option String) :
    McpResponse × SessionRegistry :=
  match sessionId with
  | some tok =>
      if tok ≠ "" ∧ mapHas sessions tok then (.handledBySession tok, sessions)
      else (.invalidSession, sessions)
  | none => (.invalidSession, sessions)

/-- `app.delete('/mcp')` after auth (src/unnamed/part_003 lines 104-122):
the same guard as GET, then `transport.handleRequest` and
`sessions.delete(sessionId)`. -/
def deleteMcp (sessions : SessionRegistry) (sessionId : Option String) :
    McpResponse × SessionRegistry :=
  match sessionId with
  | some tok =>
      if tok ≠ "" ∧ mapHas sessions tok then (.handledBySession tok, mapDelete sessions tok)
      else (.invalidSession, sessions)
  | none => (.invalidSession, sessions)

inductive McpMethod where
  | post : McpMethod
  | get : McpMethod
  | del : McpMethod
deriving DecidableEq

structure Headers where
  authorization : Option String
  xMcpKey : Option String
  mcpSessionId : Option String

/-- Multiplexer dispatch of one authenticated request on the /mcp path. -/
def mcpDispatch (method : McpMethod) (sessionId : Option String)
    (sessions : SessionRegistry) (handshake : Option String) (fresh : Nat) :
    McpResponse × SessionRegistry :=
  match method with
  | .post => postMcp sessions sessionId handshake fresh
  | .get => getMcp sessions sessionId
  | .del => deleteMcp sessions sessionId

/-- One request on the /mcp path: each route is declared as
`app.<method>('/mcp', validateMcpKey, handler)`, so the key middleware runs
first and the handler (the Multiplexer logic) only runs on `next()`. -/
def handleMcp (serviceKey : String) (method : McpMethod) (h : Headers)
    (sessions : SessionRegistry) (handshake : Option String) (fresh : Nat) :
    McpResponse × SessionRegistry :=
  match validateMcpKey serviceKey h.authorization h.xMcpKey with
  | .unauthorized => (.authMissing, sessions)
  | .forbidden => (.authInvalid, sessions)
  | .proceed => mcpDispatch method h.mcpSessionId sessions handshake fresh

/-!
Section: Activity store (src/src/types/index.ts, `activityQueries`)

The SQL statements of `activityQueries` are embedded as operations on an
in-memory table of rows (Modelled from the spec: the query *execution* — the
`pg` client and the relational store — is outside src/; §3 and §6 of the
spec describe persisted state as relational rows with a soft-delete flag).
`active` is `Option Bool` because the SQL reads it through
`COALESCE(active, true)` (a nullable column); inserts write `true`.
The `ORDER BY` clauses affect only result order; every claim is
order-insensitive, so the embedding returns rows in table order.
-/

structure DbActivity where
  activity_id : String
  lesson_id : String
  title : String
  type : String
  body_data : Json
  order_by : Option Int
  active : Option Bool
  is_summative : Bool
  notes : Option String

structure CreateActivityInput where
  lesson_id : String
  title : String
  type : String
  body_data : Json
  order_by : Option Int
  is_summative : Option Bool
  notes : Option String

structure ActivitiesTable where
  nextId : Nat
  rows : List DbActivity

/-- JS `input.order_by || null` (0 and `undefined` are falsy). -/
def jsOrNullInt : Option Int → Option Int
  | some v => if v = 0 then none else some v
  | none => none

/-- JS `input.notes || null` (the empty string and `undefined` are falsy). -/
def jsOrNullStr : Option String → Option String
  | some s => if s = "" then none else some s
  | none => none

/-- `activityQueries.create` (src/src/types/index.ts lines 162-178):
`INSERT INTO activities (lesson_id, title, type, body_data, order_by,
is_summative, notes, active) VALUES ($1,...,$7, true) RETURNING *` with the
falsy coercions `order_by || null`, `is_summative || false`, `notes || null`.
The generated `activity_id` is the table's next fresh id. -/
def activityCreate (input : CreateActivityInput) (t : ActivitiesTable) :
    DbActivity × ActivitiesTable :=
  let row : DbActivity :=
    { activity_id := toString t.nextId,
      lesson_id := input.lesson_id,
      title := input.title,
      type := input.type,
      body_data := input.body_data,
      order_by := jsOrNullInt input.order_by,
      active := some true,
      is_summative := input.is_summative.getD false,
      notes := jsOrNullStr input.notes }
  (row, { nextId := t.nextId + 1, rows := t.rows ++ [row] })

/-- `activityQueries.getAll` (src/src/types/index.ts lines 146-152):
`SELECT * FROM activities WHERE lesson_id = $1 AND
COALESCE(active, true) = true`. -/
def activityGetAll (lessonId : String) (t : ActivitiesTable) : List DbActivity :=
  t.rows.filter (fun r => r.lesson_id == lessonId && r.active.getD true)

/-- `activityQueries.delete` (src/src/types/index.ts lines 250-256):
`UPDATE activities SET active = false WHERE activity_id = $1`;
returns whether any row matched. -/
def activityDelete (activityId : String) (t : ActivitiesTable) :
    Bool × ActivitiesTable :=
  (t.rows.any (fun r => r.activity_id = activityId),
   { t with rows := t.rows.map (fun r =>
       if r.activity_id = activityId then { r with active := some false } else r) })

/-!
Section: Tool handlers (src/src/mcp/server.ts)
-/

structure CreateArgs where
  lesson_id : String
  title : String
  type : String
  body_data : Json
  order_by : Option Int
  is_summative : Option Bool
  notes : Option String

inductive CreateOutcome where
  | rejected (reason : String) : CreateOutcome  -- isError: true reply
  | created (row : DbActivity) : CreateOutcome
      -- success reply carrying JSON.stringify(activity); we return the row

/-- The `create_activity` tool handler (src/src/mcp/server.ts lines
138-174): reject `type === 'text' && args.is_summative` first, then run
`validateBodyData`, then call `activityQueries.create`. -/
def create_activity (args : CreateArgs) (t : ActivitiesTable) :
    CreateOutcome × ActivitiesTable :=
  if args.type = "text" ∧ args.is_summative = some true then
    (.rejected "text activities are non-scorable and cannot be summative", t)
  else
    match validateBodyData args.type args.body_data with
    | .err e => (.rejected e, t)
    | .ok =>
        let res := activityCreate
          { lesson_id := args.lesson_id, title := args.title, type := args.type,
            body_data := args.body_data, order_by := args.order_by,
            is_summative := args.is_summative, notes := args.notes } t
        (.created res.1, res.2)

/-- The `list_activities` tool handler (src/src/mcp/server.ts lines
176-191): `activityQueries.getAll(args.lesson_id)`. -/
def list_activities (lessonId : String) (t : ActivitiesTable) : List DbActivity :=
  activityGetAll lessonId t

/-!
Section: Well-typed multiple-choice payloads

For the universally quantified statements about the multiple-choice
validator we use payloads of the shape the schema describes (question,
options with id/text, correctOptionId — the optional image fields absent),
encoded into `Json` and fed to the validator from the source.
-/

structure McqOption where
  id : String
  text : String
deriving DecidableEq

structure McqPayload where
  question : String
  options : List McqOption
  correctOptionId : String
deriving DecidableEq

def encodeOption (o : McqOption) : Json :=
  .obj [("id", .str o.id), ("text", .str o.text)]

def encodeMcq (p : McqPayload) : Json :=
  .obj [("question", .str p.question),
        ("options", .arr (p.options.map encodeOption)),
        ("correctOptionId", .str p.correctOptionId)]

/-- The issues `McqOptionSchema` records on a well-typed option. -/
def mcqOptionIssues (o : McqOption) : List String :=
  (if o.id.length < 1 then ["Option id is required"] else []) ++
  (if o.text.length > 500 then ["Option text must be 500 characters or fewer"] else [])

/-- The issues the length checks of the `options` array record. -/
def mcqLenIssues (n : Nat) : List String :=
  (if n < 2 then ["At least 2 options are required"] else []) ++
  (if n > 4 then ["At most 4 options are allowed"] else [])

/-!
Section: Concrete instances used by counterexamples and witnesses
-/

/-- A payload meeting the three conditions of claim C2 whose question is
empty: the schema rejects it. -/
def c2cex : McqPayload :=
  { question := "",
    options := [{ id := "a", text := "x" }, { id := "b", text := "y" }],
    correctOptionId := "a" }

/-- The spec's own accepted example payload (§8): question `2+2?`,
options a/3 and b/4, correct option `b`. -/
def c2good : McqPayload :=
  { question := "2+2?",
    options := [{ id := "a", text := "3" }, { id := "b", text := "4" }],
    correctOptionId := "b" }

/-- A payload violating two rules at once: the required `question` field is
missing, and `correctOptionId` (`zz`) matches no option id (`a`, `b`). -/
def c3cex : Json :=
  .obj [("options", .arr [.obj [("id", .str "a"), ("text", .str "3")],
                          .obj [("id", .str "b"), ("text", .str "4")]]),
        ("correctOptionId", .str "zz")]

/-- A well-typed payload with five options and an unmatched
`correctOptionId`: two dirty violations. -/
def c3wit : McqPayload :=
  { question := "Q",
    options := [{ id := "a", text := "1" }, { id := "b", text := "2" },
                { id := "c", text := "3" }, { id := "d", text := "4" },
                { id := "e", text := "5" }],
    correctOptionId := "zz" }

/-- A valid `text` payload (so the C4 rejection is independent of payload
validity). -/
def c4args : CreateArgs :=
  { lesson_id := "L1", title := "T", type := "text",
    body_data := .obj [("text", .str "answer")],
    order_by := none, is_summative := some true, notes := none }

/-- A valid short-text payload carrying an unrecognized extra field. -/
def c7body : Json :=
  .obj [("question", .str "Why?"), ("modelAnswer", .str "Because"),
        ("hint", .str "extra")]

def c7args : CreateArgs :=
  { lesson_id := "L", title := "Q1", type := "short-text-question",
    body_data := c7body, order_by := none, is_summative := none, notes := none }

def c7table : ActivitiesTable := { nextId := 0, rows := [] }

/-- The row `create_activity c7args` persists. -/
def c7row : DbActivity :=
  { activity_id := "0", lesson_id := "L", title := "Q1",
    type := "short-text-question", body_data := c7body,
    order_by := none, active := some true, is_summative := false, notes := none }

/-- An active activity row, for the C9 witness. -/
def c9row : DbActivity :=
  { activity_id := "a1", lesson_id := "L", title := "T",
    type := "text", body_data := .obj [("text", .str "hello")],
    order_by := some 1, active := some true, is_summative := false, notes := some "n" }

def c9table : ActivitiesTable := { nextId := 1, rows := [c9row] }

def c10input : CreateActivityInput :=
  { lesson_id := "L", title := "T", type := "text",
    body_data := .obj [("text", .str "x")],
    order_by := some 0, is_summative := none, notes := some "" }

/-!
Section: Computation lemmas for the multiple-choice validator on well-typed payloads
-/

lemma parseMcqOption_encode (o : McqOption) :
    parseMcqOption (encodeOption o) = ⟨false, mcqOptionIssues o⟩ := by
  simp [parseMcqOption, encodeOption, combine, parseRequired, parseStringField,
    parseOptNullable, mcqOptionIssues, jlookup]

lemma parseMcqOptions_encode (os : List McqOption) :
    parseMcqOptions (.arr (os.map encodeOption)) =
      ⟨false, mcqLenIssues os.length ++ (os.map mcqOptionIssues).flatten⟩ := by
  simp [parseMcqOptions, mcqLenIssues, List.map_map, Function.comp_def,
    parseMcqOption_encode, List.any_map]

lemma mcqRefineHolds_encode (p : McqPayload) :
    mcqRefineHolds (encodeMcq p) = p.options.any (fun o => o.id == p.correctOptionId) := by
  obtain ⟨q, os, cid⟩ := p
  simp [mcqRefineHolds, encodeMcq, jlookup]
  induction os with
  | nil => rfl
  | cons o rest ih =>
      simp [encodeOption, jlookup, List.any_cons] at ih ⊢
      rw [ih]

lemma mcqBaseParse_encode (p : McqPayload) :
    mcqBaseParse (encodeMcq p) =
      ⟨false,
        (if p.question.length < 1 then ["question is required"] else []) ++
        (mcqLenIssues p.options.length ++ (p.options.map mcqOptionIssues).flatten) ++
        (if p.correctOptionId.length < 1 then ["correctOptionId is required"] else [])⟩ := by
  simp [mcqBaseParse, encodeMcq, jlookup, combine, parseRequired, parseStringField,
    parseOptNullable, parseMcqOptions_encode, List.append_assoc]

lemma mcqIssues_encode (p : McqPayload) :
    mcqIssues (encodeMcq p) =
      (if p.question.length < 1 then ["question is required"] else []) ++
      (mcqLenIssues p.options.length ++ (p.options.map mcqOptionIssues).flatten) ++
      ((if p.correctOptionId.length < 1 then ["correctOptionId is required"] else []) ++
       (if p.options.any (fun o => o.id == p.correctOptionId) then []
        else [mcqRefineMsg])) := by
  unfold mcqIssues
  rw [mcqBaseParse_encode, mcqRefineHolds_encode]
  simp [List.append_assoc]

lemma strLength_eq_zero_iff (s : String) : s.length = 0 ↔ s = "" := by
  constructor
  · intro h
    cases s with
    | mk data =>
        cases data with
        | nil => rfl
        | cons c cs => simp [String.length] at h
  · intro h
    rw [h]
    rfl

/-!
Section: Helper lemmas on the session registry
-/

lemma mapDelete_idem (m : SessionRegistry) (k : String) :
    mapDelete (mapDelete m k) k = mapDelete m k := by
  simp [mapDelete, List.filter_filter]

lemma mapHas_mapDelete_self (m : SessionRegistry) (k : String) :
    mapHas (mapDelete m k) k = false := by
  simp only [mapHas, mapDelete, List.any_eq_false]
  intro p hp
  simpa using (List.mem_filter.mp hp).2

lemma mapDelete_cons (p : String × Nat) (rest : SessionRegistry) (k : String) :
    mapDelete (p :: rest) k =
      if p.1 = k then mapDelete rest k else p :: mapDelete rest k := by
  by_cases hp : p.1 = k <;> simp [mapDelete, List.filter_cons, hp]

lemma mapGet_mapDelete_ne (m : SessionRegistry) (k k' : String) (h : k' ≠ k) :
    mapGet (mapDelete m k) k' = mapGet m k' := by
  induction m with
  | nil => rfl
  | cons p rest ih =>
      rw [mapDelete_cons]
      have hkk : ¬k = k' := fun e => h e.symm
      by_cases hp : p.1 = k
      · have hp' : ¬p.1 = k' := fun e => h (by rw [← e, hp])
        simp [hp, mapGet, hp', hkk, ih]
      · by_cases hp' : p.1 = k' <;> simp [hp, mapGet, hp', h, ih]

/-!
Section: Claim theorems
-/

/-- Claim C1, counterexample: on the POST route a request carrying the
session token `stale`, which is not in the registry (that holds only
`live`), is not failed with the 400 session error — it enters the
new-session branch, and with a successful handshake a fresh session is
created and registered.  This refutes the claim that every route fails an
unresolved token with `SessionNotFound` and never creates a session. -/
theorem c1_counterexample :
    mapHas [("live", 0)] "stale" = false ∧
    (postMcp [("live", 0)] (some "stale") (some "fresh-id") 1).1 ≠ .invalidSession ∧
    (postMcp [("live", 0)] (some "stale") (some "fresh-id") 1).1 = .initiated "fresh-id" ∧
    mapHas (postMcp [("live", 0)] (some "stale") (some "fresh-id") 1).2 "fresh-id" = true := by
  refine ⟨rfl, ?_, rfl, rfl⟩
  decide

/-- Claim C1 (amended): a request whose session token does not resolve to a
live session is failed with the 400 `Invalid or missing session ID` client
error, and no session is created, on the GET (poll) and DELETE (close)
routes; on the POST (initiate-or-continue) route such a request is instead
treated exactly like a token-less one: it enters the new-session flow
(which may create and register a fresh session) and is never answered with
the session error by the Multiplexer. -/
theorem c1_unknown_token_routing (sessions : SessionRegistry) (tok : String)
    (handshake : Option String) (fresh : Nat)
    (_hne : tok ≠ "") (hmiss : mapHas sessions tok = false) :
    getMcp sessions (some tok) = (.invalidSession, sessions) ∧
    deleteMcp sessions (some tok) = (.invalidSession, sessions) ∧
    postMcp sessions (some tok) handshake fresh = newSessionFlow sessions handshake fresh := by
  refine ⟨?_, ?_, ?_⟩ <;> simp [getMcp, deleteMcp, postMcp, hmiss]

theorem c1_routing_witness :
    getMcp [("live", 0)] (some "ghost") = (.invalidSession, [("live", 0)]) ∧
    deleteMcp [("live", 0)] (some "ghost") = (.invalidSession, [("live", 0)]) ∧
    postMcp [("live", 0)] (some "ghost") none 0 = newSessionFlow [("live", 0)] none 0 :=
  c1_unknown_token_routing [("live", 0)] "ghost" none 0 (by decide) (by decide)

/-- Claim C4: a `create_activity` call with `type = 'text'` and
`is_summative = true` is rejected with the non-scorable reason, the table
is unchanged (the Gateway's create is never invoked), and this holds for
every `body_data` whatsoever — the check precedes `validateBodyData`. -/
theorem c4_text_summative_rejected (args : CreateArgs) (t : ActivitiesTable)
    (hT : args.type = "text") (hS : args.is_summative = some true) :
    create_activity args t =
      (.rejected "text activities are non-scorable and cannot be summative", t) := by
  unfold create_activity
  rw [if_pos ⟨hT, hS⟩]

theorem c4_summative_witness :
    create_activity c4args { nextId := 0, rows := [] } =
      (.rejected "text activities are non-scorable and cannot be summative",
       { nextId := 0, rows := [] }) :=
  c4_text_summative_rejected c4args { nextId := 0, rows := [] } rfl rfl

/-- Claim C5: evicting a session token twice is a no-op on the second
eviction (no error is possible: `mapDelete` is total and idempotent), the
token is absent afterwards, and every other token's entry is untouched. -/
theorem c5_double_eviction (m : SessionRegistry) (k k' : String) (hne : k' ≠ k) :
    mapDelete (mapDelete m k) k = mapDelete m k ∧
    mapHas (mapDelete m k) k = false ∧
    mapGet (mapDelete m k) k' = mapGet m k' :=
  ⟨mapDelete_idem m k, mapHas_mapDelete_self m k, mapGet_mapDelete_ne m k k' hne⟩

theorem c5_eviction_witness :
    mapDelete (mapDelete [("s1", 1), ("s2", 2)] "s1") "s1" =
      mapDelete [("s1", 1), ("s2", 2)] "s1" ∧
    mapHas (mapDelete [("s1", 1), ("s2", 2)] "s1") "s1" = false ∧
    mapGet (mapDelete [("s1", 1), ("s2", 2)] "s1") "s2" =
      mapGet [("s1", 1), ("s2", 2)] "s2" :=
  c5_double_eviction [("s1", 1), ("s2", 2)] "s1" "s2" (by decide)

/-- Claim C6: on every /mcp route the key middleware runs before any
Multiplexer logic.  With no credential in either header the request ends
with the 401 response and the registry is untouched; with a credential that
differs from the configured service key it ends with the distinct 403
response, registry untouched; with the correct credential the request is
exactly the Multiplexer dispatch. -/
theorem c6_auth_gate (serviceKey : String) (method : McpMethod) (h : Headers)
    (sessions : SessionRegistry) (handshake : Option String) (fresh : Nat) :
    (h.authorization = none → h.xMcpKey = none →
       handleMcp serviceKey method h sessions handshake fresh = (.authMissing, sessions)) ∧
    (∀ k, providedKey h.authorization h.xMcpKey = some k → k ≠ "" → k ≠ serviceKey →
       handleMcp serviceKey method h sessions handshake fresh = (.authInvalid, sessions)) ∧
    (serviceKey ≠ "" → providedKey h.authorization h.xMcpKey = some serviceKey →
       handleMcp serviceKey method h sessions handshake fresh =
         mcpDispatch method h.mcpSessionId sessions handshake fresh) := by
  refine ⟨?_, ?_, ?_⟩
  · intro ha hx
    simp [handleMcp, validateMcpKey, providedKey, ha, hx, jsOrUndef]
  · intro k hk hne hneq
    simp [handleMcp, validateMcpKey, hk, hne, hneq]
  · intro hsk hk
    simp [handleMcp, validateMcpKey, hk, hsk]

theorem c6_auth_witness :
    handleMcp "secret" .get { authorization := none, xMcpKey := none, mcpSessionId := none }
      [] none 0 = (.authMissing, []) :=
  (c6_auth_gate "secret" .get
    { authorization := none, xMcpKey := none, mcpSessionId := none } [] none 0).1 rfl rfl

/-- Claim C8: for every kind other than the three known ones,
`validateBodyData` accepts every payload unchecked. -/
theorem c8_unknown_kind (kind : String) (payload : Json)
    (h1 : kind ≠ "multiple-choice-question") (h2 : kind ≠ "short-text-question")
    (h3 : kind ≠ "text") :
    validateBodyData kind payload = .ok := by
  simp [validateBodyData, h1, h2, h3]

theorem c8_unknown_kind_witness :
    validateBodyData "essay-question" (.obj [("anything", .num 5)]) = .ok :=
  c8_unknown_kind "essay-question" (.obj [("anything", .num 5)])
    (by decide) (by decide) (by decide)

/-- Claim C10: `activityQueries.create` coerces falsy optional arguments
with `||` before insertion: a supplied `order_by` of `0` is persisted as
null, a supplied empty-string `notes` as null, and an omitted
`is_summative` as `false`. -/
theorem c10_falsy_coercions (input : CreateActivityInput) (t : ActivitiesTable) :
    (input.order_by = some 0 → ((activityCreate input t).1).order_by = none) ∧
    (input.notes = some "" → ((activityCreate input t).1).notes = none) ∧
    (input.is_summative = none → ((activityCreate input t).1).is_summative = false) := by
  refine ⟨fun h => ?_, fun h => ?_, fun h => ?_⟩ <;>
    simp [activityCreate, h, jsOrNullInt, jsOrNullStr]

theorem c10_coercions_witness :
    ((activityCreate c10input { nextId := 0, rows := [] }).1).order_by = none ∧
    ((activityCreate c10input { nextId := 0, rows := [] }).1).notes = none ∧
    ((activityCreate c10input { nextId := 0, rows := [] }).1).is_summative = false :=
  ⟨(c10_falsy_coercions c10input { nextId := 0, rows := [] }).1 rfl,
   (c10_falsy_coercions c10input { nextId := 0, rows := [] }).2.1 rfl,
   (c10_falsy_coercions c10input { nextId := 0, rows := [] }).2.2 rfl⟩

/-- Claim C2, counterexample: `c2cex` has 2 options, every option text has
at most 500 characters, and its `correctOptionId` is the id of an option —
the three conditions of the claimed iff — yet `validate` rejects it, because
its question is empty.  The claimed equivalence is therefore false. -/
theorem c2_counterexample :
    (2 ≤ c2cex.options.length ∧ c2cex.options.length ≤ 4 ∧
     (∀ o ∈ c2cex.options, o.text.length ≤ 500) ∧
     (∃ o ∈ c2cex.options, o.id = c2cex.correctOptionId)) ∧
    validateBodyData "multiple-choice-question" (encodeMcq c2cex) ≠ .ok := by
  refine ⟨by decide, ?_⟩
  decide

/-- Claim C2 (amended): for every well-typed multiple-choice payload,
`validate` accepts iff the question is non-empty, the options list has
length between 2 and 4, every option has a non-empty id and a display text
of at most 500 characters, and `correctOptionId` is non-empty and equals
the id of one of the supplied options (exact membership). -/
theorem c2_mcq_validation (p : McqPayload) :
    validateBodyData "multiple-choice-question" (encodeMcq p) = .ok ↔
      (p.question ≠ "" ∧
       2 ≤ p.options.length ∧ p.options.length ≤ 4 ∧
       (∀ o ∈ p.options, o.id ≠ "" ∧ o.text.length ≤ 500) ∧
       p.correctOptionId ≠ "" ∧
       (∃ o ∈ p.options, o.id = p.correctOptionId)) := by
  have hiff : validateBodyData "multiple-choice-question" (encodeMcq p) = .ok ↔
      mcqIssues (encodeMcq p) = [] := by
    by_cases h : (mcqIssues (encodeMcq p)).isEmpty
    · have he := List.isEmpty_iff.mp h
      simp [validateBodyData, h, he]
    · have h2 : mcqIssues (encodeMcq p) ≠ [] := by
        intro e
        rw [e] at h
        exact h rfl
      simp [validateBodyData, h, h2]
  rw [hiff, mcqIssues_encode]
  simp [mcqLenIssues, mcqOptionIssues, List.append_eq_nil, List.flatten_eq_nil_iff,
    Nat.lt_one_iff, strLength_eq_zero_iff, Nat.not_lt, List.any_eq_true]

theorem c2_validation_witness :
    validateBodyData "multiple-choice-question" (encodeMcq c2good) = .ok :=
  (c2_mcq_validation c2good).mpr (by decide)

/-- Claim C3, counterexample: `c3cex` violates two rules at once — the
required question field is missing, and `correctOptionId` (`zz`) matches no
option id — but the single rejection reason is only `Required`: the
membership rule is not listed, because zod skips the `.refine` check when
the base object parse aborts.  This refutes "lists every violated rule" in
general. -/
theorem c3_counterexample :
    validateBodyData "multiple-choice-question" c3cex =
      .err "Invalid body_data for multiple-choice-question: Required" ∧
    mcqRefineHolds c3cex = false ∧
    mcqRefineMsg ∉ mcqIssues c3cex := by
  refine ⟨rfl, rfl, ?_⟩
  decide

/-- Claim C3 (amended): the validator returns a single rejection whose
reason aggregates, rather than stopping at the first failure: on a
well-typed payload every violated rule contributes its message to the issue
list (question required, options length bounds, option id required, option
text cap, correctOptionId required, and — when the payload is well-typed —
the membership rule), and the rejection is the one error string joining all
issues.  When a field is missing or wrongly typed the base parse aborts and
the membership rule may be omitted (see the counterexample). -/
theorem c3_issue_aggregation (p : McqPayload) :
    (p.question = "" → "question is required" ∈ mcqIssues (encodeMcq p)) ∧
    (p.options.length < 2 → "At least 2 options are required" ∈ mcqIssues (encodeMcq p)) ∧
    (4 < p.options.length → "At most 4 options are allowed" ∈ mcqIssues (encodeMcq p)) ∧
    (∀ o ∈ p.options, o.id = "" → "Option id is required" ∈ mcqIssues (encodeMcq p)) ∧
    (∀ o ∈ p.options, 500 < o.text.length →
       "Option text must be 500 characters or fewer" ∈ mcqIssues (encodeMcq p)) ∧
    (p.correctOptionId = "" → "correctOptionId is required" ∈ mcqIssues (encodeMcq p)) ∧
    ((∀ o ∈ p.options, o.id ≠ p.correctOptionId) → mcqRefineMsg ∈ mcqIssues (encodeMcq p)) ∧
    (mcqIssues (encodeMcq p) ≠ [] →
       validateBodyData "multiple-choice-question" (encodeMcq p) =
         .err ("Invalid body_data for multiple-choice-question: " ++
           String.intercalate "; " (mcqIssues (encodeMcq p)))) := by
  rw [mcqIssues_encode]
  refine ⟨?_, ?_, ?_, ?_, ?_, ?_, ?_, ?_⟩
  · intro h
    simp [h, mcqLenIssues]
  · intro h
    simp [h, mcqLenIssues]
  · intro h
    simp [h, Nat.lt_asymm h, mcqLenIssues]
  · intro o ho h
    have : "Option id is required" ∈ mcqOptionIssues o := by simp [mcqOptionIssues, h]
    have hmem : "Option id is required" ∈ (p.options.map mcqOptionIssues).flatten :=
      List.mem_flatten.mpr ⟨mcqOptionIssues o, List.mem_map_of_mem _ ho, this⟩
    simp [hmem]
  · intro o ho h
    have : "Option text must be 500 characters or fewer" ∈ mcqOptionIssues o := by
      simp [mcqOptionIssues, h]
    have hmem :
        "Option text must be 500 characters or fewer" ∈
          (p.options.map mcqOptionIssues).flatten :=
      List.mem_flatten.mpr ⟨mcqOptionIssues o, List.mem_map_of_mem _ ho, this⟩
    simp [hmem]
  · intro h
    simp [h]
  · intro h
    have hany : p.options.any (fun o => o.id == p.correctOptionId) = false := by
      simp [List.any_eq_false]
      exact h
    simp [hany]
  · intro hne
    rw [← mcqIssues_encode] at hne ⊢
    have h2 : ¬(mcqIssues (encodeMcq p)).isEmpty = true := by
      intro e
      exact hne (List.isEmpty_iff.mp e)
    simp [validateBodyData, h2]

/-- Claim C7: whenever `create_activity` succeeds, the persisted row has
`active = true` and carries the input payload unchanged, and it appears in
`list_activities` for its lesson; concretely, a short-text payload with the
unrecognized extra field `hint` is created, listed, and its payload —
including the extra field — equals the input payload. -/
theorem c7_roundtrip :
    (∀ (args : CreateArgs) (t : ActivitiesTable) (row : DbActivity) (t' : ActivitiesTable),
        create_activity args t = (.created row, t') →
        row.active = some true ∧ row.body_data = args.body_data ∧
        row ∈ list_activities args.lesson_id t') ∧
    (create_activity c7args c7table = (.created c7row, { nextId := 1, rows := [c7row] }) ∧
     c7row ∈ list_activities "L" { nextId := 1, rows := [c7row] } ∧
     c7row.body_data = c7args.body_data ∧
     c7row.body_data = .obj [("question", .str "Why?"), ("modelAnswer", .str "Because"),
       ("hint", .str "extra")]) := by
  constructor
  · intro args t row t' h
    unfold create_activity at h
    split at h
    · simp at h
    · split at h
      · simp at h
      · simp only [Prod.mk.injEq, CreateOutcome.created.injEq] at h
        obtain ⟨h1, h2⟩ := h
        subst h1
        subst h2
        refine ⟨rfl, rfl, ?_⟩
        simp [activityCreate, list_activities, activityGetAll, List.filter_append,
          List.mem_append]
  · refine ⟨rfl, ?_, rfl, rfl⟩
    simp [list_activities, activityGetAll, c7row]

theorem c7_roundtrip_witness :
    c7row.active = some true ∧ c7row.body_data = c7args.body_data ∧
    c7row ∈ list_activities c7args.lesson_id { nextId := 1, rows := [c7row] } :=
  c7_roundtrip.1 c7args c7table c7row { nextId := 1, rows := [c7row] } rfl

/-- Claim C9: the delete operation only flips the matching row's `active`
flag to false — the table keeps the same number of rows, non-matching rows
are untouched, the matching row survives with every other field unchanged —
and a row whose `active` flag is false never appears in a
`list_activities` result. -/
theorem c9_soft_delete (t : ActivitiesTable) (id lessonId : String) :
    ((activityDelete id t).2).rows.length = t.rows.length ∧
    (∀ r ∈ t.rows, r.activity_id ≠ id → r ∈ ((activityDelete id t).2).rows) ∧
    (∀ r ∈ t.rows, r.activity_id = id →
       ({ r with active := some false } : DbActivity) ∈ ((activityDelete id t).2).rows) ∧
    (∀ r' ∈ ((activityDelete id t).2).rows, ∃ r ∈ t.rows,
       r'.activity_id = r.activity_id ∧ r'.lesson_id = r.lesson_id ∧
       r'.title = r.title ∧ r'.type = r.type ∧ r'.body_data = r.body_data ∧
       r'.order_by = r.order_by ∧ r'.is_summative = r.is_summative ∧
       r'.notes = r.notes) ∧
    (∀ r : DbActivity, r.active = some false → r ∉ list_activities lessonId t) := by
  refine ⟨?_, ?_, ?_, ?_, ?_⟩
  · simp [activityDelete]
  · intro r hr hne
    have hmem := List.mem_map_of_mem
      (fun r => if r.activity_id = id then { r with active := some false } else r) hr
    simpa [activityDelete, hne] using hmem
  · intro r hr he
    have hmem := List.mem_map_of_mem
      (fun r => if r.activity_id = id then { r with active := some false } else r) hr
    simpa [activityDelete, he] using hmem
  · intro r' hr'
    simp only [activityDelete] at hr'
    obtain ⟨r, hr, rfl⟩ := List.mem_map.mp hr'
    refine ⟨r, hr, ?_⟩
    by_cases hcase : r.activity_id = id <;> simp [hcase]
  · intro r hfalse hmem
    simp only [list_activities, activityGetAll] at hmem
    have h2 := (List.mem_filter.mp hmem).2
    rw [hfalse] at h2
    simp at h2

theorem c9_soft_delete_witness :
    ({ c9row with active := some false } : DbActivity) ∈
      ((activityDelete "a1" c9table).2).rows :=
  (c9_soft_delete c9table "a1" "L").2.2.1 c9row (List.mem_singleton.mpr rfl) rfl

theorem c3_aggregation_witness :
    "At most 4 options are allowed" ∈ mcqIssues (encodeMcq c3wit) ∧
    mcqRefineMsg ∈ mcqIssues (encodeMcq c3wit) :=
  ⟨(c3_issue_aggregation c3wit).2.2.1 (by decide),
   (c3_issue_aggregation c3wit).2.2.2.2.2.2.1 (by decide)⟩

end Planner
